import Mathlib

/-!
Verification of the StatDash upload-to-chart pipeline
(`src/dashboard/pages/create_graph/create_graph.py`).

The pure core is embedded shallowly:
* `parse_contents` — split the transport string on `","` (Python tuple
  unpacking into exactly two parts), base64-decode the payload
  (`base64.b64decode`, non-strict), decode the bytes as UTF-8, and read
  the text as CSV (`pl.read_csv`).
* `display_graph` — the if-chain over the graph-type strings
  `"scatter"`, `"line"`, `"histo"`; there is no else branch, so an
  unrecognized type leaves the local variable `fig` unbound and the final
  `dcc.Graph(..., figure=fig)` raises `UnboundLocalError`.
* `update_output` — the Dash callback: `None` content raises
  `PreventUpdate`; a `ValueError` from `parse_contents` is caught and
  also converted to `PreventUpdate`; otherwise the parsed frame is handed
  to `display_graph`.

Python exceptions are modelled by the inductive `PyError`; whether a
given exception class is a subclass of `ValueError` (the only class
`update_output` catches) is recorded by `PyError.isValueError`:
`binascii.Error` and `UnicodeDecodeError` are `ValueError` subclasses,
while the polars parse errors and `UnboundLocalError` are not.
-/

set_option autoImplicit false

namespace StatDash

/-- Python exception values that the pipeline can raise. -/
inductive PyError where
  /-- A plain `ValueError`, e.g. from tuple unpacking of `str.split`,
  or a `binascii.Error` (a `ValueError` subclass) from `base64.b64decode`. -/
  | valueError (msg : String)
  /-- `UnicodeDecodeError` from `bytes.decode("utf-8")`; a `ValueError` subclass. -/
  | unicodeDecodeError
  /-- Parse failure on empty input (spec `EmptyInputError`). -/
  | emptyInputError
  /-- Parse failure on a row whose column count differs from the header;
  carries the 1-based data-row index (spec `MalformedRowError`). -/
  | malformedRowError (rowIndex : Nat)
  /-- Column lookup `df[name]` on a frame without that column. -/
  | columnNotFoundError (name : String)
  /-- Python `UnboundLocalError`: a local variable referenced before assignment. -/
  | unboundLocalError (varName : String)
  deriving Repr, DecidableEq

/-- Whether the exception is (an instance of a subclass of) Python
`ValueError` — the only class caught by `update_output`. -/
def PyError.isValueError : PyError → Bool
  | .valueError _ => true
  | .unicodeDecodeError => true
  | _ => false

/-- A single CSV cell after column typing: numeric or text. -/
inductive CsvValue where
  | int (i : Int)
  | text (s : String)
  deriving Repr, DecidableEq

/-- The parsed table: column names in file order and the typed column
bodies, one list per name, all of equal length. -/
structure DataFrame where
  names : List String
  cols : List (List CsvValue)
  deriving Repr, DecidableEq

/-- Number of rows of the frame. -/
def DataFrame.height (df : DataFrame) : Nat :=
  (df.cols.headD []).length

/-- A plotly figure as built by `px.scatter` / `px.line` / `px.histogram`:
the chart kind together with its data series and title. -/
inductive Fig where
  | scatter (x y : List CsvValue) (title : String)
  | line (x y : List CsvValue) (title : String)
  | histogram (x : List CsvValue) (title : String)
  deriving Repr, DecidableEq

/-- The `dcc.Graph` component returned by `display_graph`. -/
structure GraphComponent where
  className : String
  figure : Fig
  deriving Repr, DecidableEq

/-- Outcome of the `update_output` callback: either Dash's `PreventUpdate`
(no change to the output), an uncaught Python exception propagating out of
the callback, or a returned component (`display_graph` returns `None`
when its frame is `None`). -/
inductive UpdateResult where
  | preventUpdate
  | error (e : PyError)
  | output (c : Option GraphComponent)
  deriving Repr, DecidableEq

/-! ### String splitting (Python `str.split` with a one-character separator) -/

/-- Split a character list at every occurrence of `sep`; Python
`s.split(sep)` semantics for a single-character separator: the result is
never empty and keeps empty pieces (`"a,,b" → ["a","","b"]`, `"" → [""]`). -/
def splitOnChar (sep : Char) : List Char → List (List Char)
  | [] => [[]]
  | c :: cs =>
    match splitOnChar sep cs with
    | [] => [[c]]
    | p :: ps => if c = sep then [] :: p :: ps else (c :: p) :: ps

/-- Python `s.split(",")`. -/
def pySplitComma (s : String) : List String :=
  (splitOnChar ',' s.data).map String.mk

/-! ### Base64 decoding (`base64.b64decode`, non-strict mode) -/

/-- Value of a character in the standard base64 alphabet. -/
def b64Val (c : Char) : Option Nat :=
  if 'A' ≤ c ∧ c ≤ 'Z' then some (c.toNat - 65)
  else if 'a' ≤ c ∧ c ≤ 'z' then some (c.toNat - 97 + 26)
  else if '0' ≤ c ∧ c ≤ '9' then some (c.toNat - 48 + 52)
  else if c = '+' then some 62
  else if c = '/' then some 63
  else none

/-- Turn a list of 6-bit values into bytes, 4 values to 3 bytes; a final
group of 2 or 3 values (completed by padding) yields 1 or 2 bytes. -/
def decodeQuanta : List Nat → List Nat
  | v0 :: v1 :: v2 :: v3 :: rest =>
    (v0 * 4 + v1 / 16) :: ((v1 % 16) * 16 + v2 / 4) :: ((v2 % 4) * 64 + v3)
      :: decodeQuanta rest
  | [v0, v1] => [v0 * 4 + v1 / 16]
  | [v0, v1, v2] => [v0 * 4 + v1 / 16, (v1 % 16) * 16 + v2 / 4]
  | _ => []

/-- `base64.b64decode` in its default non-strict mode: characters outside
the alphabet and `'='` are discarded; the data characters are the kept
characters before the first `'='`; a data length of `4k+1` or missing
padding for a final 2- or 3-character group raises `binascii.Error`
(a `ValueError` subclass). -/
def b64decode (s : String) : Except PyError (List Nat) :=
  let kept := s.data.filter (fun c => (b64Val c).isSome || c = '=')
  let dataChars := kept.takeWhile (fun c => c ≠ '=')
  let pads := (kept.filter (fun c => c = '=')).length
  let vals := dataChars.filterMap b64Val
  if vals.length % 4 = 1 then
    .error (.valueError "Invalid base64-encoded string")
  else if vals.length % 4 = 2 && pads < 2 then
    .error (.valueError "Incorrect padding")
  else if vals.length % 4 = 3 && pads < 1 then
    .error (.valueError "Incorrect padding")
  else
    .ok (decodeQuanta vals)

/-! ### UTF-8 decoding (`bytes.decode("utf-8")`) -/

/-- Is the byte a UTF-8 continuation byte (`0x80..0xBF`)? -/
def isCont (b : Nat) : Bool := 0x80 ≤ b && b < 0xC0

/-- Fueled UTF-8 decoder over a byte list; each step consumes at least one
byte, so fuel `bs.length` suffices.  Rejects stray continuation bytes,
overlong encodings, surrogates and values above `0x10FFFF`. -/
def utf8DecodeF : Nat → List Nat → Option (List Char)
  | _, [] => some []
  | 0, _ :: _ => none
  | fuel + 1, b :: rest =>
    if b < 0x80 then
      (utf8DecodeF fuel rest).map (Char.ofNat b :: ·)
    else if b < 0xC2 then
      none
    else if b < 0xE0 then
      match rest with
      | b1 :: rest2 =>
        if isCont b1 then
          (utf8DecodeF fuel rest2).map (Char.ofNat ((b - 0xC0) * 64 + (b1 - 0x80)) :: ·)
        else none
      | _ => none
    else if b < 0xF0 then
      match rest with
      | b1 :: b2 :: rest3 =>
        if isCont b1 && isCont b2
            && !(b = 0xE0 && b1 < 0xA0) && !(b = 0xED && 0xA0 ≤ b1) then
          (utf8DecodeF fuel rest3).map
            (Char.ofNat ((b - 0xE0) * 4096 + (b1 - 0x80) * 64 + (b2 - 0x80)) :: ·)
        else none
      | _ => none
    else if b < 0xF5 then
      match rest with
      | b1 :: b2 :: b3 :: rest4 =>
        if isCont b1 && isCont b2 && isCont b3
            && !(b = 0xF0 && b1 < 0x90) && !(b = 0xF4 && 0x90 ≤ b1) then
          (utf8DecodeF fuel rest4).map
            (Char.ofNat ((b - 0xF0) * 262144 + (b1 - 0x80) * 4096
              + (b2 - 0x80) * 64 + (b3 - 0x80)) :: ·)
        else none
      | _ => none
    else none

/-- `bytes.decode("utf-8")`: a decode failure raises `UnicodeDecodeError`,
a `ValueError` subclass. -/
def pyDecodeUtf8 (bs : List Nat) : Except PyError String :=
  match utf8DecodeF bs.length bs with
  | some cs => .ok (String.mk cs)
  | none => .error .unicodeDecodeError

/-! ### The tabular parser (`pl.read_csv` on an in-memory string) -/

/-- Split a string on `'\n'`. -/
def pySplitNewline (s : String) : List String :=
  (splitOnChar '\n' s.data).map String.mk

/-- The lines of the CSV text: split on `'\n'`, discarding the empty
piece produced by a trailing newline. -/
def csvLines (s : String) : List String :=
  let parts := pySplitNewline s
  if parts.getLast? = some "" then parts.dropLast else parts

/-- Value of a decimal digit string. -/
def digitsToNat (ds : List Char) : Nat :=
  ds.foldl (fun acc d => acc * 10 + (d.toNat - 48)) 0

/-- Numeric interpretation of a CSV field: an optional leading minus sign
followed by at least one digit. -/
def tryParseInt (s : String) : Option Int :=
  match s.data with
  | '-' :: d :: ds =>
    if (d :: ds).all Char.isDigit then some (-(digitsToNat (d :: ds) : Int)) else none
  | d :: ds =>
    if (d :: ds).all Char.isDigit then some ((digitsToNat (d :: ds) : Int)) else none
  | [] => none

/-- Type a raw column: numeric if every field parses as a number,
otherwise text. -/
def typeColumn (raw : List String) : List CsvValue :=
  if raw.all (fun f => (tryParseInt f).isSome) then
    raw.map (fun f => .int ((tryParseInt f).getD 0))
  else
    raw.map .text

/-- The 1-based index of the first data row whose comma-separated field
count differs from the header width `w`, if any. -/
def firstBadRow (w : Nat) : List String → Option Nat
  | [] => none
  | r :: rs =>
    if (pySplitComma r).length ≠ w then some 1
    else (firstBadRow w rs).map (· + 1)

/-- Modelled from the spec: `pl.read_csv` is an external library call not
in this repository; §4.2 of the spec gives its contract.  The first line
is the header defining the column names; each later line is a data row;
empty input fails with `EmptyInputError`; a row whose comma-separated
field count differs from the header's fails with `MalformedRowError`
carrying the 1-based index of the first such row, and no partial table is
returned; per-column typing attempts numeric interpretation and falls
back to text.  These errors are polars exceptions, which are not
`ValueError` subclasses. -/
def read_csv (s : String) : Except PyError DataFrame :=
  match csvLines s with
  | [] => .error .emptyInputError
  | header :: rows =>
    let names := pySplitComma header
    let w := names.length
    match firstBadRow w rows with
    | some i => .error (.malformedRowError i)
    | none =>
      .ok ⟨names, (List.range w).map
        (fun j => typeColumn (rows.map (fun r => (pySplitComma r).getD j "")))⟩

/-! ### The pipeline functions from `create_graph.py` -/

/-- The tuple unpacking `content_type, content_string = contents.split(",")`:
succeeds only when the split yields exactly two parts, i.e. when the
content holds exactly one comma; otherwise Python raises a `ValueError`
(`not enough values to unpack` / `too many values to unpack`). -/
def splitUnpack2 (contents : String) : Except PyError (String × String) :=
  match pySplitComma contents with
  | [a, b] => .ok (a, b)
  | [_] => .error (.valueError "not enough values to unpack")
  | _ => .error (.valueError "too many values to unpack")

/-- The transport-decoding stage of `parse_contents` (lines 249–250):
split off the content type, then base64-decode the payload. -/
def decodeContent (contents : String) : Except PyError (String × List Nat) := do
  let (content_type, content_string) ← splitUnpack2 contents
  let decoded ← b64decode content_string
  pure (content_type, decoded)

/-- `parse_contents(contents, filename)`: split the transport string,
base64-decode, UTF-8-decode, and read the CSV.  `filename` is bound but
never used. -/
def parse_contents (contents : String) (filename : String) :
    Except PyError DataFrame := do
  let (_content_type, decoded) ← decodeContent contents
  let text ← pyDecodeUtf8 decoded
  read_csv text

/-- Index of the first column with the given name, if any. -/
def colIdx (name : String) : List String → Option Nat
  | [] => none
  | n :: ns => if n = name then some 0 else (colIdx name ns).map (· + 1)

/-- `df[name]` on a polars frame: the typed column, or
`ColumnNotFoundError` when no column has that name. -/
def getCol (df : DataFrame) (name : String) : Except PyError (List CsvValue) :=
  match colIdx name df.names with
  | some i => .ok (df.cols.getD i [])
  | none => .error (.columnNotFoundError name)

/-- The fixed chart title used by every branch of `display_graph`. -/
def chartTitle : String := "Test graph from csv file"

/-- `display_graph(df, graph_type)`: when `df` is `None` the body is
skipped and the function returns `None`.  Otherwise three independent
`if` statements test the graph type against `"scatter"`, `"line"` and
`"histo"`, each assigning the local `fig` (evaluating `df["x"]` before
`df["y"]`); there is no else branch, so when none matched the final
`dcc.Graph(className="m-5 shadow-md", figure=fig)` raises
`UnboundLocalError` for `fig`. -/
def display_graph (df : Option DataFrame) (graph_type : String) :
    Except PyError (Option GraphComponent) :=
  match df with
  | none => .ok none
  | some df => do
    let fig0 : Option Fig := none
    let fig1 ←
      if graph_type = "scatter" then do
        let xs ← getCol df "x"
        let ys ← getCol df "y"
        pure (some (Fig.scatter xs ys chartTitle))
      else pure fig0
    let fig2 ←
      if graph_type = "line" then do
        let xs ← getCol df "x"
        let ys ← getCol df "y"
        pure (some (Fig.line xs ys chartTitle))
      else pure fig1
    let fig3 ←
      if graph_type = "histo" then do
        let xs ← getCol df "x"
        pure (some (Fig.histogram xs chartTitle))
      else pure fig2
    match fig3 with
    | none => .error (.unboundLocalError "fig")
    | some f => .ok (some ⟨"m-5 shadow-md", f⟩)

/-- The Dash callback `update_output(content, filename, value)`: `None`
content raises `PreventUpdate`; `parse_contents` failures that are
`ValueError`s are caught and turned into `PreventUpdate`, any other
exception propagates; on success the frame is rendered by
`display_graph`. -/
def update_output (content : Option String) (filename : String)
    (value : String) : UpdateResult :=
  match content with
  | none => .preventUpdate
  | some c =>
    match parse_contents c filename with
    | .error e => if e.isValueError then .preventUpdate else .error e
    | .ok df =>
      match display_graph (some df) value with
      | .error e => .error e
      | .ok comp => .output comp

/-! ### Helper lemmas -/

theorem splitOnChar_ne_nil (sep : Char) (l : List Char) : splitOnChar sep l ≠ [] := by
  cases l with
  | nil => simp [splitOnChar]
  | cons c cs =>
    simp only [splitOnChar]
    cases splitOnChar sep cs with
    | nil => simp
    | cons p ps => by_cases hc : c = sep <;> simp [hc]

theorem splitOnChar_not_mem (sep : Char) (l : List Char) (h : ¬ sep ∈ l) :
    splitOnChar sep l = [l] := by
  induction l with
  | nil => rfl
  | cons c cs ih =>
    have hc : ¬ c = sep := by rintro rfl; exact h (List.mem_cons_self _ _)
    have hcs : ¬ sep ∈ cs := fun hm => h (List.mem_cons_of_mem _ hm)
    simp [splitOnChar, ih hcs, hc]

theorem splitOnChar_append (sep : Char) (s t : List Char) (hs : ¬ sep ∈ s) :
    splitOnChar sep (s ++ sep :: t) = s :: splitOnChar sep t := by
  induction s with
  | nil =>
    cases hne : splitOnChar sep t with
    | nil => exact absurd hne (splitOnChar_ne_nil sep t)
    | cons p ps => simp [splitOnChar, hne]
  | cons c cs ih =>
    have hc : ¬ c = sep := by rintro rfl; exact hs (List.mem_cons_self _ _)
    have hcs : ¬ sep ∈ cs := fun hm => hs (List.mem_cons_of_mem _ hm)
    simp [splitOnChar, ih hcs, hc]

theorem pySplitComma_ne_nil (s : String) : pySplitComma s ≠ [] := by
  unfold pySplitComma
  simp [splitOnChar_ne_nil]

theorem pySplitComma_append (s t : String) (hs : ¬ ',' ∈ s.data)
    (ht : ¬ ',' ∈ t.data) : pySplitComma (s ++ "," ++ t) = [s, t] := by
  unfold pySplitComma
  rw [String.data_append, String.data_append]
  show (splitOnChar ',' (s.data ++ [','] ++ t.data)).map String.mk = [s, t]
  rw [List.append_assoc]
  show (splitOnChar ',' (s.data ++ ',' :: t.data)).map String.mk = [s, t]
  rw [splitOnChar_append ',' s.data t.data hs, splitOnChar_not_mem ',' t.data ht]
  rfl

theorem splitUnpack2_append (s t : String) (hs : ¬ ',' ∈ s.data)
    (ht : ¬ ',' ∈ t.data) : splitUnpack2 (s ++ "," ++ t) = .ok (s, t) := by
  unfold splitUnpack2
  rw [pySplitComma_append s t hs ht]

theorem decodeContent_append (s t : String) (hs : ¬ ',' ∈ s.data)
    (ht : ¬ ',' ∈ t.data) :
    decodeContent (s ++ "," ++ t) = (b64decode t).map (fun bs => (s, bs)) := by
  unfold decodeContent
  rw [splitUnpack2_append s t hs ht]
  show (b64decode t).bind (fun d => pure (s, d)) = (b64decode t).map (fun bs => (s, bs))
  cases b64decode t <;> rfl

theorem firstBadRow_eq_none (w : Nat) (rows : List String)
    (h : ∀ r ∈ rows, (pySplitComma r).length = w) : firstBadRow w rows = none := by
  induction rows with
  | nil => rfl
  | cons r rs ih =>
    have hr := h r (List.mem_cons_self _ _)
    have ih' := ih (fun x hx => h x (List.mem_cons_of_mem _ hx))
    simp [firstBadRow, hr, ih']

theorem firstBadRow_eq_some (w : Nat) (rows : List String) (i : Nat)
    (hi : i < rows.length)
    (hbad : (pySplitComma (rows.get ⟨i, hi⟩)).length ≠ w)
    (hgood : ∀ r ∈ rows.take i, (pySplitComma r).length = w) :
    firstBadRow w rows = some (i + 1) := by
  induction rows generalizing i with
  | nil => exact absurd hi (Nat.not_lt_zero i)
  | cons r rs ih =>
    cases i with
    | zero =>
      simp only [List.get] at hbad
      simp [firstBadRow, hbad]
    | succ j =>
      have hr : (pySplitComma r).length = w :=
        hgood r (by simp [List.take_succ_cons])
      have hj : j < rs.length := Nat.lt_of_succ_lt_succ hi
      have hbad' : (pySplitComma (rs.get ⟨j, hj⟩)).length ≠ w := hbad
      have hgood' : ∀ x ∈ rs.take j, (pySplitComma x).length = w := by
        intro x hx
        exact hgood x (by simp [List.take_succ_cons, hx])
      simp [firstBadRow, hr, ih j hj hbad' hgood']

theorem colIdx_eq_none (name : String) (l : List String) (h : ¬ name ∈ l) :
    colIdx name l = none := by
  induction l with
  | nil => rfl
  | cons n ns ih =>
    have hn : ¬ n = name := by rintro rfl; exact h (List.mem_cons_self _ _)
    have ih' := ih (fun hm => h (List.mem_cons_of_mem _ hm))
    simp [colIdx, hn, ih']

theorem colIdx_exists_of_mem (name : String) (l : List String) (h : name ∈ l) :
    ∃ i, colIdx name l = some i := by
  induction l with
  | nil => cases h
  | cons n ns ih =>
    by_cases hn : n = name
    · exact ⟨0, by simp [colIdx, hn]⟩
    · rcases List.mem_cons.mp h with he | hm
      · exact absurd he.symm hn
      · obtain ⟨i, hi⟩ := ih hm
        exact ⟨i + 1, by simp [colIdx, hn, hi]⟩

theorem typeColumn_length (raw : List String) :
    (typeColumn raw).length = raw.length := by
  unfold typeColumn
  split <;> simp

theorem typeColumn_nil : typeColumn [] = [] := rfl

theorem getD_nil_of_all_nil {α : Type} (l : List (List α)) (i : Nat)
    (h : ∀ x ∈ l, x = []) : l.getD i [] = [] := by
  induction l generalizing i with
  | nil => simp [List.getD]
  | cons a tl ih =>
    cases i with
    | zero => exact h a (List.mem_cons_self _ _)
    | succ j => exact ih j (fun x hx => h x (List.mem_cons_of_mem _ hx))

theorem getCol_empty (df : DataFrame) (name : String) (hmem : name ∈ df.names)
    (hcols : ∀ col ∈ df.cols, col = []) : getCol df name = .ok [] := by
  obtain ⟨i, hi⟩ := colIdx_exists_of_mem name df.names hmem
  unfold getCol
  rw [hi]
  show Except.ok (df.cols.getD i []) = Except.ok []
  rw [getD_nil_of_all_nil df.cols i hcols]

theorem headD_map_range {α : Type} (g : Nat → α) (d : α) (w : Nat) (hw : 0 < w) :
    (((List.range w).map g).headD d) = g 0 := by
  cases w with
  | zero => exact absurd hw (Nat.lt_irrefl 0)
  | succ k => rw [List.range_succ_eq_map]; rfl

theorem read_csv_ok (csvText header : String) (rows : List String)
    (hlines : csvLines csvText = header :: rows)
    (hw : ∀ r ∈ rows, (pySplitComma r).length = (pySplitComma header).length) :
    read_csv csvText = .ok ⟨pySplitComma header,
      (List.range (pySplitComma header).length).map
        (fun j => typeColumn (rows.map (fun r => (pySplitComma r).getD j "")))⟩ := by
  unfold read_csv
  rw [hlines]
  simp [firstBadRow_eq_none _ _ hw]

theorem display_graph_scatter (df : DataFrame) :
    display_graph (some df) "scatter" =
      (getCol df "x").bind (fun xs => (getCol df "y").map
        (fun ys => some ⟨"m-5 shadow-md", Fig.scatter xs ys chartTitle⟩)) := by
  unfold display_graph
  cases hx : getCol df "x" with
  | error e => simp only [hx]; rfl
  | ok xs =>
    cases hy : getCol df "y" with
    | error e => simp only [hx, hy]; rfl
    | ok ys => simp only [hx, hy]; rfl

theorem display_graph_line (df : DataFrame) :
    display_graph (some df) "line" =
      (getCol df "x").bind (fun xs => (getCol df "y").map
        (fun ys => some ⟨"m-5 shadow-md", Fig.line xs ys chartTitle⟩)) := by
  unfold display_graph
  cases hx : getCol df "x" with
  | error e => simp only [hx]; rfl
  | ok xs =>
    cases hy : getCol df "y" with
    | error e => simp only [hx, hy]; rfl
    | ok ys => simp only [hx, hy]; rfl

theorem display_graph_histo (df : DataFrame) :
    display_graph (some df) "histo" =
      (getCol df "x").map
        (fun xs => some ⟨"m-5 shadow-md", Fig.histogram xs chartTitle⟩) := by
  unfold display_graph
  cases hx : getCol df "x" with
  | error e => simp only [hx]; rfl
  | ok xs => simp only [hx]; rfl

/-! ### Claim theorems -/

/-- C1: the claim states that `display_graph` fails with an
`UnknownChartKindError` for every chart-kind string outside
`{line, scatter, histogram}`.  The code has no such error class: with a
frame holding columns `x` and `y`, the unknown kind `"pie"` — and even
`"histogram"`, the very name in the claimed closed set — leave the local
`fig` unassigned and raise `UnboundLocalError`, while `"histo"`, a string
outside the claimed set, silently produces a histogram chart. -/
theorem c1_unknown_kind_unbound_local :
    display_graph (some ⟨["x", "y"], [[.int 1], [.int 2]]⟩) "pie"
      = .error (.unboundLocalError "fig") ∧
    display_graph (some ⟨["x", "y"], [[.int 1], [.int 2]]⟩) "histogram"
      = .error (.unboundLocalError "fig") ∧
    display_graph (some ⟨["x", "y"], [[.int 1], [.int 2]]⟩) "histo"
      = .ok (some ⟨"m-5 shadow-md", Fig.histogram [.int 1] chartTitle⟩) :=
  ⟨rfl, rfl, rfl⟩

/-- C2: the full pipeline on content `"text/csv,eCx5CjEsMgozLDQ="` with
chart kind `"scatter"` yields a scatter chart with x-series `[1, 3]`,
y-series `[2, 4]` and title `"Test graph from csv file"`. -/
theorem c2_pipeline_scatter_example :
    update_output (some "text/csv,eCx5CjEsMgozLDQ=") "test.csv" "scatter" =
      .output (some ⟨"m-5 shadow-md",
        Fig.scatter [.int 1, .int 3] [.int 2, .int 4] "Test graph from csv file"⟩) :=
  rfl

/-- C3 counterexample: the claim says chart kind `"histogram"` succeeds
whenever column `x` is present; on a frame with column `x` the code's
if-chain matches no branch for `"histogram"` (its identifier is
`"histo"`) and raises `UnboundLocalError` instead of succeeding. -/
theorem c3_counterexample_histogram_kind :
    display_graph (some ⟨["x"], [[.int 1, .int 2]]⟩) "histogram" =
      .error (.unboundLocalError "fig") :=
  rfl

/-- C3 (amended): for the code's histogram identifier `"histo"`, if the
table has a column named `x` the chart-building operation succeeds with a
histogram built from column `x` alone, and if it has no column named `x`
it fails with a column-not-found error naming `x`. -/
theorem c3_histo_requires_column_x (df : DataFrame) :
    ("x" ∈ df.names → ∃ xs, getCol df "x" = .ok xs ∧
      display_graph (some df) "histo" =
        .ok (some ⟨"m-5 shadow-md", Fig.histogram xs chartTitle⟩)) ∧
    (¬ "x" ∈ df.names → display_graph (some df) "histo" =
      .error (.columnNotFoundError "x")) := by
  constructor
  · intro hmem
    obtain ⟨i, hi⟩ := colIdx_exists_of_mem "x" df.names hmem
    refine ⟨df.cols.getD i [], ?_, ?_⟩
    · unfold getCol; rw [hi]
    · rw [display_graph_histo]
      unfold getCol; rw [hi]; rfl
  · intro hmem
    rw [display_graph_histo]
    unfold getCol
    rw [colIdx_eq_none "x" df.names hmem]
    rfl

/-- C3 witness: the amended claim at two concrete frames, one with
column `x` and one without. -/
theorem c3_histo_witness :
    (∃ xs, getCol ⟨["x"], [[.int 5]]⟩ "x" = .ok xs ∧
      display_graph (some ⟨["x"], [[.int 5]]⟩) "histo" =
        .ok (some ⟨"m-5 shadow-md", Fig.histogram xs chartTitle⟩)) ∧
    display_graph (some ⟨["a"], [[.int 1]]⟩) "histo" =
      .error (.columnNotFoundError "x") :=
  ⟨(c3_histo_requires_column_x ⟨["x"], [[.int 5]]⟩).1 (by decide),
   (c3_histo_requires_column_x ⟨["a"], [[.int 1]]⟩).2 (by decide)⟩

/-- C4 counterexample: the claim says every content string with at least
one comma is validly decoded with everything after the first comma
treated as payload; on `"text/csv,QQ==,x"`, which holds two commas, the
tuple unpacking of `str.split(",")` raises a `ValueError` instead. -/
theorem c4_counterexample_two_commas :
    ',' ∈ "text/csv,QQ==,x".data ∧
    decodeContent "text/csv,QQ==,x" =
      .error (.valueError "too many values to unpack") :=
  ⟨by decide, rfl⟩

/-- C4 (amended): for every content string containing exactly one comma
— written `s ++ "," ++ t` with `s` and `t` comma-free — the unpacking
split succeeds, yielding the substring before the comma as the
content-type descriptor, and the transport decoder decodes the substring
after the comma as the base64 payload.  Two or more commas make the
unpacking raise a `ValueError`. -/
theorem c4_exactly_one_comma_decodes (s t : String) (hs : ¬ ',' ∈ s.data)
    (ht : ¬ ',' ∈ t.data) :
    splitUnpack2 (s ++ "," ++ t) = .ok (s, t) ∧
    decodeContent (s ++ "," ++ t) = (b64decode t).map (fun bs => (s, bs)) :=
  ⟨splitUnpack2_append s t hs ht, decodeContent_append s t hs ht⟩

/-- C4 witness: the amended claim at the concrete content
`"text/csv,QQ=="`, whose payload decodes to the single byte 65. -/
theorem c4_witness :
    splitUnpack2 ("text/csv" ++ "," ++ "QQ==") = .ok ("text/csv", "QQ==") ∧
    decodeContent ("text/csv" ++ "," ++ "QQ==") = .ok ("text/csv", [65]) := by
  have h := c4_exactly_one_comma_decodes "text/csv" "QQ==" (by decide) (by decide)
  exact ⟨h.1, by rw [h.2]; rfl⟩

/-- C6: for every filename and chart kind, a `null` upload content makes
`update_output` raise `PreventUpdate` — the distinct "not ready" signal,
which is not an error of the pipeline's error taxonomy — and no chart is
produced. -/
theorem c6_null_content_not_ready (f v : String) :
    update_output none f v = .preventUpdate ∧
    ∀ e : PyError, (UpdateResult.preventUpdate : UpdateResult) ≠ .error e :=
  ⟨rfl, fun _ h => UpdateResult.noConfusion h⟩

/-- C6 witness: the claim at a concrete filename and chart kind. -/
theorem c6_witness :
    update_output none "file.csv" "line" = .preventUpdate ∧
    ∀ e : PyError, (UpdateResult.preventUpdate : UpdateResult) ≠ .error e :=
  c6_null_content_not_ready "file.csv" "line"

/-- C10: the filename argument never influences the pipeline: both
`parse_contents` and `update_output` return identical results for any two
filenames, all other inputs equal. -/
theorem c10_filename_never_influences (c : String) (co : Option String)
    (f1 f2 v : String) :
    parse_contents c f1 = parse_contents c f2 ∧
    update_output co f1 v = update_output co f2 v := by
  constructor
  · rfl
  · cases co <;> rfl

/-- C5: for every content string that decodes (transport then UTF-8) to a
valid CSV text — nonempty, with every data row as wide as the header —
the pipeline yields a table whose column names equal the CSV header
fields, in order, and whose row count equals the CSV line count minus
one. -/
theorem c5_decode_parse_header_rowcount (contents ct f csvText header : String)
    (bytes : List Nat) (rows : List String)
    (hdec : decodeContent contents = .ok (ct, bytes))
    (htext : pyDecodeUtf8 bytes = .ok csvText)
    (hlines : csvLines csvText = header :: rows)
    (hw : ∀ r ∈ rows, (pySplitComma r).length = (pySplitComma header).length) :
    ∃ df, parse_contents contents f = .ok df ∧
      df.names = pySplitComma header ∧
      df.height = rows.length ∧
      df.height + 1 = (csvLines csvText).length := by
  have hready := read_csv_ok csvText header rows hlines hw
  have hpc : parse_contents contents f = read_csv csvText := by
    unfold parse_contents
    rw [hdec]
    show (pyDecodeUtf8 bytes).bind (fun text => read_csv text) = read_csv csvText
    rw [htext]
    rfl
  have hw0 : 0 < (pySplitComma header).length :=
    List.length_pos.mpr (pySplitComma_ne_nil header)
  refine ⟨_, by rw [hpc]; exact hready, rfl, ?_, ?_⟩
  · show ((((List.range (pySplitComma header).length)).map
      (fun j => typeColumn (rows.map
        (fun r => (pySplitComma r).getD j "")))).headD []).length = rows.length
    rw [headD_map_range _ _ _ hw0, typeColumn_length, List.length_map]
  · rw [hlines]
    show ((((List.range (pySplitComma header).length)).map
      (fun j => typeColumn (rows.map
        (fun r => (pySplitComma r).getD j "")))).headD []).length + 1
        = (header :: rows).length
    rw [headD_map_range _ _ _ hw0, typeColumn_length, List.length_map,
      List.length_cons]

/-- C5 witness: the concrete content `"text/csv,YSxiCjUsNg=="`, the
transport encoding of the CSV `"a,b\n5,6"`. -/
theorem c5_witness :
    ∃ df, parse_contents "text/csv,YSxiCjUsNg==" "t.csv" = .ok df ∧
      df.names = pySplitComma "a,b" ∧
      df.height = ["5,6"].length ∧
      df.height + 1 = (csvLines "a,b\n5,6").length :=
  c5_decode_parse_header_rowcount "text/csv,YSxiCjUsNg==" "text/csv" "t.csv"
    "a,b\n5,6" "a,b" [97, 44, 98, 10, 53, 44, 54] ["5,6"]
    rfl rfl rfl (by decide)

/-- C7: for every CSV text whose data row at 0-based position `i` is the
first with a field count different from the header's, parsing fails with
`MalformedRowError` carrying the 1-based index `i + 1` of that row, and
no table — in particular no partial table of the well-formed rows before
it — is returned. -/
theorem c7_malformed_row_all_or_nothing (csvText header : String)
    (rows : List String) (i : Nat) (hi : i < rows.length)
    (hlines : csvLines csvText = header :: rows)
    (hbad : (pySplitComma (rows.get ⟨i, hi⟩)).length ≠ (pySplitComma header).length)
    (hgood : ∀ r ∈ rows.take i,
      (pySplitComma r).length = (pySplitComma header).length) :
    read_csv csvText = .error (.malformedRowError (i + 1)) ∧
    ∀ df : DataFrame, read_csv csvText ≠ .ok df := by
  have hfb := firstBadRow_eq_some (pySplitComma header).length rows i hi hbad hgood
  have hmain : read_csv csvText = .error (.malformedRowError (i + 1)) := by
    unfold read_csv
    rw [hlines]
    show (match firstBadRow (pySplitComma header).length rows with
        | some j => Except.error (PyError.malformedRowError j)
        | none => Except.ok (DataFrame.mk (pySplitComma header)
            ((List.range (pySplitComma header).length).map
              (fun j => typeColumn (rows.map
                (fun r => (pySplitComma r).getD j "")))))) =
      Except.error (PyError.malformedRowError (i + 1))
    rw [hfb]
  refine ⟨hmain, fun df h => ?_⟩
  rw [hmain] at h
  exact Except.noConfusion h

/-- C7 witness: the CSV `"x,y\n1,2\n3"`, whose second data row has one
field instead of two, fails with `MalformedRowError 2`. -/
theorem c7_witness :
    read_csv "x,y\n1,2\n3" = .error (.malformedRowError 2) ∧
    ∀ df : DataFrame, read_csv "x,y\n1,2\n3" ≠ .ok df :=
  c7_malformed_row_all_or_nothing "x,y\n1,2\n3" "x,y" ["1,2", "3"] 1
    (by decide) rfl (by decide) (by decide)

/-- C8: every header-only CSV parses to a table whose columns all have
length zero, and chart building on that table — for each chart kind the
code knows, with its required columns present — still succeeds, producing
a chart with empty series rather than an error. -/
theorem c8_header_only_empty_series (csvText header : String)
    (hlines : csvLines csvText = [header]) :
    ∃ df, read_csv csvText = .ok df ∧
      df.names = pySplitComma header ∧
      (∀ col ∈ df.cols, col = []) ∧
      ("x" ∈ df.names → "y" ∈ df.names →
        display_graph (some df) "scatter" =
          .ok (some ⟨"m-5 shadow-md", Fig.scatter [] [] chartTitle⟩) ∧
        display_graph (some df) "line" =
          .ok (some ⟨"m-5 shadow-md", Fig.line [] [] chartTitle⟩)) ∧
      ("x" ∈ df.names →
        display_graph (some df) "histo" =
          .ok (some ⟨"m-5 shadow-md", Fig.histogram [] chartTitle⟩)) := by
  have hok := read_csv_ok csvText header [] hlines (by intro r hr; cases hr)
  have hcols : ∀ col ∈ (List.range (pySplitComma header).length).map
      (fun j => typeColumn (List.map
        (fun r => (pySplitComma r).getD j "") ([] : List String))), col = [] := by
    intro col hcol
    rw [List.mem_map] at hcol
    obtain ⟨j, _, hcol⟩ := hcol
    rw [← hcol]
    exact typeColumn_nil
  refine ⟨⟨pySplitComma header, (List.range (pySplitComma header).length).map
      (fun j => typeColumn (List.map
        (fun r => (pySplitComma r).getD j "") ([] : List String)))⟩,
    hok, rfl, hcols, ?_, ?_⟩
  · intro hx hy
    have hgx := getCol_empty _ "x" hx hcols
    have hgy := getCol_empty _ "y" hy hcols
    constructor
    · rw [display_graph_scatter, hgx, hgy]; rfl
    · rw [display_graph_line, hgx, hgy]; rfl
  · intro hx
    have hgx := getCol_empty _ "x" hx hcols
    rw [display_graph_histo, hgx]; rfl

/-- C8 witness: the header-only CSV text `"x,y"`. -/
theorem c8_witness :
    ∃ df, read_csv "x,y" = .ok df ∧
      df.names = pySplitComma "x,y" ∧
      (∀ col ∈ df.cols, col = []) ∧
      ("x" ∈ df.names → "y" ∈ df.names →
        display_graph (some df) "scatter" =
          .ok (some ⟨"m-5 shadow-md", Fig.scatter [] [] chartTitle⟩) ∧
        display_graph (some df) "line" =
          .ok (some ⟨"m-5 shadow-md", Fig.line [] [] chartTitle⟩)) ∧
      ("x" ∈ df.names →
        display_graph (some df) "histo" =
          .ok (some ⟨"m-5 shadow-md", Fig.histogram [] chartTitle⟩)) :=
  c8_header_only_empty_series "x,y" "x,y" rfl

/-- C9 counterexample: the claim says a malformed-base64 payload
propagates to the caller as a user-visible "could not read file"
condition rather than being silently swallowed with no output change.
On `"text/csv,AAAAA"` (five data characters, an invalid base64 length)
`b64decode` raises `binascii.Error`, a `ValueError` subclass, which
`update_output` catches and converts to `PreventUpdate` — Dash's
"make no change to the output" signal — so the failure is exactly the
silent no-output-change the claim rules out. -/
theorem c9_counterexample_silent_swallow :
    parse_contents "text/csv,AAAAA" "data.csv" =
      .error (.valueError "Invalid base64-encoded string") ∧
    update_output (some "text/csv,AAAAA") "data.csv" "scatter" =
      .preventUpdate :=
  ⟨rfl, rfl⟩

/-- C9 (amended): for every content string with exactly one comma whose
payload is malformed base64, the decoder raises `binascii.Error` (a
`ValueError` subclass) out of `parse_contents`, and `update_output`
catches it and raises `PreventUpdate`: the output is left unchanged and
no chart is produced. -/
theorem c9_malformed_base64_prevents_update (s t f v msg : String)
    (hs : ¬ ',' ∈ s.data) (ht : ¬ ',' ∈ t.data)
    (hb : b64decode t = .error (.valueError msg)) :
    parse_contents (s ++ "," ++ t) f = .error (.valueError msg) ∧
    update_output (some (s ++ "," ++ t)) f v = .preventUpdate := by
  have hdc : decodeContent (s ++ "," ++ t) = .error (.valueError msg) := by
    rw [decodeContent_append s t hs ht, hb]; rfl
  have hpc : parse_contents (s ++ "," ++ t) f = .error (.valueError msg) := by
    unfold parse_contents
    rw [hdc]
    rfl
  refine ⟨hpc, ?_⟩
  show (match parse_contents (s ++ "," ++ t) f with
    | .error e => if e.isValueError then UpdateResult.preventUpdate
        else UpdateResult.error e
    | .ok df =>
      match display_graph (some df) v with
      | .error e => UpdateResult.error e
      | .ok comp => UpdateResult.output comp) = UpdateResult.preventUpdate
  rw [hpc]
  rfl

/-- C9 witness: the amended claim at the concrete content
`"text/csv" ++ "," ++ "AAAAA"`. -/
theorem c9_witness :
    parse_contents ("text/csv" ++ "," ++ "AAAAA") "f.csv" =
      .error (.valueError "Invalid base64-encoded string") ∧
    update_output (some ("text/csv" ++ "," ++ "AAAAA")) "f.csv" "line" =
      .preventUpdate :=
  c9_malformed_base64_prevents_update "text/csv" "AAAAA" "f.csv" "line"
    "Invalid base64-encoded string" (by decide) (by decide) rfl

end StatDash

